import Mathlib

/-!
Verification development for the rsruckig trajectory generator.

The Rust sources are embedded shallowly: `f64` values are modelled as exact
rationals (`ℚ`), mutation is modelled by explicit state passing, and fallible
code returns `Option`/`Except`.  Every definition is translated from the
repository sources; the file reference is given next to each definition.
-/

set_option maxHeartbeats 4000000

/-- Machine epsilon of `f64` (`core::f64::EPSILON`), exactly `2^-52`. -/
def EPSILON : ℚ := 1 / 2 ^ 52

/-- Limit-inclusion slack for velocities, `profile.rs` line 6. -/
def V_EPS : ℚ := 1 / 10 ^ 12

/-- Limit-inclusion slack for accelerations, `profile.rs` line 7. -/
def A_EPS : ℚ := 1 / 10 ^ 12

/-- Limit-inclusion slack for jerk, `profile.rs` line 8. -/
def J_EPS : ℚ := 1 / 10 ^ 12

/-- Final-position tolerance, `profile.rs` line 10. -/
def P_PRECISION : ℚ := 1 / 10 ^ 8

/-- Final-velocity tolerance, `profile.rs` line 11. -/
def V_PRECISION : ℚ := 1 / 10 ^ 8

/-- Final-acceleration tolerance, `profile.rs` line 12. -/
def A_PRECISION : ℚ := 1 / 10 ^ 10

/-- Maximal accepted profile duration, `profile.rs` line 14. -/
def T_MAX : ℚ := 10 ^ 12

/-- Newton convergence tolerance of the root solver, `roots.rs` line 13. -/
def TOLERANCE : ℚ := 1 / 10 ^ 14

/-- Closed-form integration of a constant-jerk segment, `util.rs` `integrate`. -/
def integrate (t p0 v0 a0 j : ℚ) : ℚ × ℚ × ℚ :=
  (p0 + t * (v0 + t * (a0 / 2 + t * j / 6)),
   v0 + t * (a0 + t * j / 2),
   a0 + t * j)

/-- Two-segment pre-trajectory record, `brake.rs` `BrakeProfile`.  The Rust
arrays `t`, `j`, `a`, `v`, `p` of length 2 are flattened into named fields. -/
structure BrakeProfile where
  duration : ℚ := 0
  t0 : ℚ := 0
  t1 : ℚ := 0
  j0 : ℚ := 0
  j1 : ℚ := 0
  a0 : ℚ := 0
  a1 : ℚ := 0
  v0 : ℚ := 0
  v1 : ℚ := 0
  p0 : ℚ := 0
  p1 : ℚ := 0
  deriving DecidableEq

/-- The all-zero brake profile, `BrakeProfile::new` / `Default`. -/
def BrakeProfile.new : BrakeProfile := {}

/-- State materialisation of the brake profile, `brake.rs` lines 187-212.
The Rust function mutates the caller's `ps`, `vs`, `as_`; here the updated
brake record and the three updated values are returned. -/
def BrakeProfile.finalize (b : BrakeProfile) (ps vs az : ℚ) :
    BrakeProfile × ℚ × ℚ × ℚ :=
  if b.t0 ≤ 0 ∧ b.t1 ≤ 0 then
    ({ b with duration := 0 }, ps, vs, az)
  else
    let b1 : BrakeProfile := { b with duration := b.t0, p0 := ps, v0 := vs, a0 := az }
    let r1 := integrate b.t0 ps vs az b.j0
    if 0 < b.t1 then
      let b2 : BrakeProfile :=
        { b1 with duration := b.t0 + b.t1, p1 := r1.1, v1 := r1.2.1, a1 := r1.2.2 }
      let r2 := integrate b.t1 r1.1 r1.2.1 r1.2.2 b.j1
      (b2, r2)
    else
      (b1, r1)

/-- Which plateau limits a profile saturates, `profile.rs` `ReachedLimits`. -/
inductive ReachedLimits
  | Acc0Acc1Vel | Vel | Acc0 | Acc1 | Acc0Acc1 | Acc0Vel | Acc1Vel | None
  deriving DecidableEq

/-- Motion direction tag, `profile.rs` `Direction`. -/
inductive Direction
  | UP | DOWN
  deriving DecidableEq

/-- Jerk sign pattern across the seven segments, `profile.rs` `ControlSigns`. -/
inductive ControlSigns
  | UDDU | UDUD
  deriving DecidableEq

/-- Does the tag belong to the `matches!` set that requires a velocity
plateau (`Acc0Acc1Vel | Acc0Vel | Acc1Vel | Vel`), `profile.rs` line 304. -/
def isVelLimits : ReachedLimits → Bool
  | .Acc0Acc1Vel | .Acc0Vel | .Acc1Vel | .Vel => true
  | _ => false

/-- Does the tag belong to `Acc0 | Acc0Acc1`, `profile.rs` line 315. -/
def isAcc0Limits : ReachedLimits → Bool
  | .Acc0 | .Acc0Acc1 => true
  | _ => false

/-- Does the tag belong to `Acc1 | Acc0Acc1`, `profile.rs` line 321. -/
def isAcc1Limits : ReachedLimits → Bool
  | .Acc1 | .Acc0Acc1 => true
  | _ => false

/-- Seven-segment jerk-bang profile for one DoF, `profile.rs` `Profile`.
The Rust arrays `t[0..7]`, `t_sum[0..7]`, `j[0..7]`, `a[0..8]`, `v[0..8]`,
`p[0..8]` are flattened into named fields (`ts_i` is `t_sum[i]`). -/
structure Profile where
  t0 : ℚ := 0
  t1 : ℚ := 0
  t2 : ℚ := 0
  t3 : ℚ := 0
  t4 : ℚ := 0
  t5 : ℚ := 0
  t6 : ℚ := 0
  ts0 : ℚ := 0
  ts1 : ℚ := 0
  ts2 : ℚ := 0
  ts3 : ℚ := 0
  ts4 : ℚ := 0
  ts5 : ℚ := 0
  ts6 : ℚ := 0
  j0 : ℚ := 0
  j1 : ℚ := 0
  j2 : ℚ := 0
  j3 : ℚ := 0
  j4 : ℚ := 0
  j5 : ℚ := 0
  j6 : ℚ := 0
  a0 : ℚ := 0
  a1 : ℚ := 0
  a2 : ℚ := 0
  a3 : ℚ := 0
  a4 : ℚ := 0
  a5 : ℚ := 0
  a6 : ℚ := 0
  a7 : ℚ := 0
  v0 : ℚ := 0
  v1 : ℚ := 0
  v2 : ℚ := 0
  v3 : ℚ := 0
  v4 : ℚ := 0
  v5 : ℚ := 0
  v6 : ℚ := 0
  v7 : ℚ := 0
  p0 : ℚ := 0
  p1 : ℚ := 0
  p2 : ℚ := 0
  p3 : ℚ := 0
  p4 : ℚ := 0
  p5 : ℚ := 0
  p6 : ℚ := 0
  p7 : ℚ := 0
  brake : BrakeProfile := {}
  accel : BrakeProfile := {}
  pf : ℚ := 0
  vf : ℚ := 0
  af : ℚ := 0
  limits : ReachedLimits := ReachedLimits.None
  direction : Direction := Direction.UP
  control_signs : ControlSigns := ControlSigns.UDDU
  deriving DecidableEq

/-- The third-order position-interface profile validator, `profile.rs`
`Profile::check` (lines 281-439).  The Rust method mutates `self` and returns
`bool`; here the updated profile and the flag are returned as a pair.  On an
early `return false` the Rust code leaves `t_sum`/`a`/`v`/`p` partially
written; callers discard the profile in that case, so the original record is
returned unchanged.  Likewise the in-loop velocity-crossing `return false`
is folded into the final flag: the flag agrees with the source, and the
profile record is only ever used by callers when the flag is `true`. -/
def Profile.check (pr : Profile) (control_signs : ControlSigns) (limits : ReachedLimits)
    (set_limits : Bool) (jf v_max v_min a_max a_min : ℚ) : Profile × Bool :=
  if pr.t0 < 0 ∨ pr.t1 < 0 ∨ pr.t2 < 0 ∨ pr.t3 < 0 ∨ pr.t4 < 0 ∨ pr.t5 < 0 ∨ pr.t6 < 0 then
    (pr, false)
  else
    let ts0 := pr.t0
    let ts1 := ts0 + pr.t1
    let ts2 := ts1 + pr.t2
    let ts3 := ts2 + pr.t3
    let ts4 := ts3 + pr.t4
    let ts5 := ts4 + pr.t5
    let ts6 := ts5 + pr.t6
    if isVelLimits limits = true ∧ pr.t3 < EPSILON then (pr, false)
    else if isAcc0Limits limits = true ∧ pr.t1 < EPSILON then (pr, false)
    else if isAcc1Limits limits = true ∧ pr.t5 < EPSILON then (pr, false)
    else if T_MAX < ts6 then (pr, false)
    else
      let j0 := if 0 < pr.t0 then jf else 0
      let j1 : ℚ := 0
      let j2 := if 0 < pr.t2 then -jf else 0
      let j3 : ℚ := 0
      let j4 := if control_signs = ControlSigns.UDDU then
                  (if 0 < pr.t4 then -jf else 0)
                else
                  (if 0 < pr.t4 then jf else 0)
      let j5 : ℚ := 0
      let j6 := if control_signs = ControlSigns.UDDU then
                  (if 0 < pr.t6 then jf else 0)
                else
                  (if 0 < pr.t6 then -jf else 0)
      let dir := if 0 < v_max then Direction.UP else Direction.DOWN
      let v_upp_lim := (if dir = Direction.UP then v_max else v_min) + V_EPS
      let v_low_lim := (if dir = Direction.UP then v_min else v_max) - V_EPS
      -- loop iteration i = 0
      let a1r := pr.a0 + pr.t0 * j0
      let v1 := pr.v0 + pr.t0 * (pr.a0 + pr.t0 * j0 / 2)
      let p1 := pr.p0 + pr.t0 * (pr.v0 + pr.t0 * (pr.a0 / 2 + pr.t0 * j0 / 6))
      let a1 := if set_limits = true ∧ limits = ReachedLimits.Acc0Acc1 then a_max else a1r
      -- loop iteration i = 1
      let a2 := a1 + pr.t1 * j1
      let v2 := v1 + pr.t1 * (a1 + pr.t1 * j1 / 2)
      let p2 := p1 + pr.t1 * (v1 + pr.t1 * (a1 / 2 + pr.t1 * j1 / 6))
      -- loop iteration i = 2 (with the `a[3]` pinning of lines 377-395)
      let a3r := a2 + pr.t2 * j2
      let v3 := v2 + pr.t2 * (a2 + pr.t2 * j2 / 2)
      let p3 := p2 + pr.t2 * (v2 + pr.t2 * (a2 / 2 + pr.t2 * j2 / 6))
      let a3 := if set_limits = true ∧ limits = ReachedLimits.Acc1 then a_min
                else if isVelLimits limits = true ∨ limits = ReachedLimits.Acc0Acc1 then 0
                else a3r
      -- loop iteration i = 3
      let a4 := a3 + pr.t3 * j3
      let v4 := v3 + pr.t3 * (a3 + pr.t3 * j3 / 2)
      let p4 := p3 + pr.t3 * (v3 + pr.t3 * (a3 / 2 + pr.t3 * j3 / 6))
      -- loop iteration i = 4
      let a5r := a4 + pr.t4 * j4
      let v5 := v4 + pr.t4 * (a4 + pr.t4 * j4 / 2)
      let p5 := p4 + pr.t4 * (v4 + pr.t4 * (a4 / 2 + pr.t4 * j4 / 6))
      let a5 := if set_limits = true ∧ limits = ReachedLimits.Acc0Acc1 then a_min else a5r
      -- loop iteration i = 5
      let a6 := a5 + pr.t5 * j5
      let v6 := v5 + pr.t5 * (a5 + pr.t5 * j5 / 2)
      let p6 := p5 + pr.t5 * (v5 + pr.t5 * (a5 / 2 + pr.t5 * j5 / 6))
      -- loop iteration i = 6
      let a7 := a6 + pr.t6 * j6
      let v7 := v6 + pr.t6 * (a6 + pr.t6 * j6 / 2)
      let p7 := p6 + pr.t6 * (v6 + pr.t6 * (a6 / 2 + pr.t6 * j6 / 6))
      -- the in-loop velocity-crossing guards (`i > 1`, lines 408-413)
      let crossOk (ai aip1 vi ji : ℚ) : Prop :=
        ¬ (aip1 * ai < -EPSILON ∧
            (v_upp_lim < vi - ai * ai / (2 * ji) ∨ vi - ai * ai / (2 * ji) < v_low_lim))
      let a_upp_lim := (if dir = Direction.UP then a_max else a_min) + A_EPS
      let a_low_lim := (if dir = Direction.UP then a_min else a_max) - A_EPS
      let pr2 : Profile :=
        { pr with
          ts0 := ts0, ts1 := ts1, ts2 := ts2, ts3 := ts3, ts4 := ts4, ts5 := ts5, ts6 := ts6,
          j0 := j0, j1 := j1, j2 := j2, j3 := j3, j4 := j4, j5 := j5, j6 := j6,
          a1 := a1, a2 := a2, a3 := a3, a4 := a4, a5 := a5, a6 := a6, a7 := a7,
          v1 := v1, v2 := v2, v3 := v3, v4 := v4, v5 := v5, v6 := v6, v7 := v7,
          p1 := p1, p2 := p2, p3 := p3, p4 := p4, p5 := p5, p6 := p6, p7 := p7,
          direction := dir, limits := limits, control_signs := control_signs }
      (pr2, decide (
        crossOk a2 a3 v2 j2 ∧ crossOk a3 a4 v3 j3 ∧ crossOk a4 a5 v4 j4 ∧
        crossOk a5 a6 v5 j5 ∧ crossOk a6 a7 v6 j6 ∧
        |p7 - pr.pf| < P_PRECISION ∧ |v7 - pr.vf| < V_PRECISION ∧ |a7 - pr.af| < A_PRECISION ∧
        (a_low_lim ≤ a1 ∧ a1 ≤ a_upp_lim) ∧ (a_low_lim ≤ a3 ∧ a3 ≤ a_upp_lim) ∧
        (a_low_lim ≤ a5 ∧ a5 ≤ a_upp_lim) ∧
        (v_low_lim ≤ v3 ∧ v3 ≤ v_upp_lim) ∧ (v_low_lim ≤ v4 ∧ v4 ≤ v_upp_lim) ∧
        (v_low_lim ≤ v5 ∧ v5 ≤ v_upp_lim) ∧ (v_low_lim ≤ v6 ∧ v6 ≤ v_upp_lim)))

/-- Validator used after synchronization, `profile.rs` `check_with_timing`
(line 442): `check` with `set_limits = false` and no extra time test. -/
def Profile.check_with_timing (pr : Profile) (control_signs : ControlSigns)
    (limits : ReachedLimits) (jf v_max v_min a_max a_min : ℚ) : Profile × Bool :=
  Profile.check pr control_signs limits false jf v_max v_min a_max a_min

/-- Validator additionally enforcing the jerk bound, `profile.rs`
`check_with_timing_full` (line 459). -/
def Profile.check_with_timing_full (pr : Profile) (control_signs : ControlSigns)
    (limits : ReachedLimits) (_tf jf v_max v_min a_max a_min j_max : ℚ) : Profile × Bool :=
  if |jf| < |j_max| + J_EPS then
    Profile.check_with_timing pr control_signs limits jf v_max v_min a_max a_min
  else
    (pr, false)

/-- Per-DoF body of `Trajectory::state_to_integrate_from` for a time that
falls inside section 0 (`trajectory.rs` lines 86-140).  `td` is the
`t_diff_dof` local offset; the returned triple is the `(p, v, a)` starting
point integrated over the within-segment offset, as done by `at_time`. -/
def state_to_integrate_from_dof (p : Profile) (td : ℚ) : ℚ × ℚ × ℚ :=
  if 0 < p.brake.duration ∧ td < p.brake.duration then
    if td < p.brake.t0 then integrate td p.brake.p0 p.brake.v0 p.brake.a0 p.brake.j0
    else integrate (td - p.brake.t0) p.brake.p1 p.brake.v1 p.brake.a1 p.brake.j1
  else
    let td1 := if 0 < p.brake.duration then td - p.brake.duration else td
    if p.ts6 ≤ td1 then integrate (td1 - p.ts6) p.p7 p.v7 p.a7 0
    else if td1 < p.ts0 then integrate td1 p.p0 p.v0 p.a0 p.j0
    else if td1 < p.ts1 then integrate (td1 - p.ts0) p.p1 p.v1 p.a1 p.j1
    else if td1 < p.ts2 then integrate (td1 - p.ts1) p.p2 p.v2 p.a2 p.j2
    else if td1 < p.ts3 then integrate (td1 - p.ts2) p.p3 p.v3 p.a3 p.j3
    else if td1 < p.ts4 then integrate (td1 - p.ts3) p.p4 p.v4 p.a4 p.j4
    else if td1 < p.ts5 then integrate (td1 - p.ts4) p.p5 p.v5 p.a5 p.j5
    else integrate (td1 - p.ts5) p.p6 p.v6 p.a6 p.j6

/-- One-DoF sampling of a single-section trajectory of duration `dur`,
`Trajectory::at_time` / `state_to_integrate_from` (`trajectory.rs` lines
43-141): for `time ≥ duration` the state is extrapolated with zero jerk from
the profile's terminal state (`t_pre` is the brake duration for a
one-section trajectory); otherwise the section-0 body runs with
`t_diff = time`. -/
def at_time_single_section (p : Profile) (dur time : ℚ) : ℚ × ℚ × ℚ :=
  if dur ≤ time then
    integrate (time - (p.brake.duration + p.ts6)) p.p7 p.v7 p.a7 0
  else
    state_to_integrate_from_dof p time

/-- Profile stored by `TargetCalculator::calculate` for a DoF with
`enabled = false` (`calculator_target.rs` lines 311-329): starting from the
freshly-constructed all-zero profile, only the last entries of `p`, `v`,
`a` are set to the current state and the last entry of `t_sum` to 0. -/
def disabled_dof_profile (cp cv ca : ℚ) : Profile :=
  { p7 := cp, v7 := cv, a7 := ca, ts6 := 0 }

/-- Blocked-interval record, `block.rs` `Interval` (named `BlockInterval`
here because Mathlib already declares `Interval`). -/
structure BlockInterval where
  left : ℚ := 0
  right : ℚ := 0
  profile : Profile := {}
  deriving DecidableEq

/-- Interval between two profiles, `block.rs` `Interval::from_profiles`. -/
def BlockInterval.from_profiles (profile_left profile_right : Profile) : BlockInterval :=
  let left_duration :=
    profile_left.ts6 + profile_left.brake.duration + profile_left.accel.duration
  let right_duration :=
    profile_right.ts6 + profile_right.brake.duration + profile_right.accel.duration
  if left_duration < right_duration then
    { left := left_duration, right := right_duration, profile := profile_right }
  else
    { left := right_duration, right := left_duration, profile := profile_left }

/-- Feasible-duration structure of one DoF, `block.rs` `Block`. -/
structure Block where
  p_min : Profile := {}
  t_min : ℚ := 0
  a : Option BlockInterval := none
  b : Option BlockInterval := none
  deriving DecidableEq

/-- Record the minimum profile, `block.rs` `Block::set_min_profile`. -/
def Block.set_min_profile (_bl : Block) (p : Profile) : Block :=
  { p_min := p,
    t_min := p.ts6 + p.brake.duration + p.accel.duration,
    a := none, b := none }

/-- Blocked-duration test, `block.rs` `Block::is_blocked`. -/
def Block.is_blocked (bl : Block) (t : ℚ) : Bool :=
  decide (t < bl.t_min) ||
    (match bl.a with
     | some i => decide (i.left < t ∧ t < i.right)
     | none => false) ||
    (match bl.b with
     | some i => decide (i.left < t ∧ t < i.right)
     | none => false)

/-- Index of the fastest profile, `block.rs` lines 99-110: Rust
`Iterator::min_by` returns the last of equally-minimal elements, and
`unwrap_or(0)` covers the empty case. -/
def idx_min_by_duration (ps : List Profile) : ℕ :=
  ((ps.enum.foldl
    (fun acc x =>
      match acc with
      | Option.none => some (x.1, x.2.ts6)
      | some b => if x.2.ts6 ≤ b.2 then some (x.1, x.2.ts6) else b)
    Option.none).getD (0, 0)).1

/-- Common tail of `Block::calculate_block` (`block.rs` lines 99-151): find
the fastest profile, then resolve the 3- and 5-candidate interval structure;
any other remaining count falls through to `false`. -/
def Block.calculate_block_tail (bl : Block) (ps : List Profile) : Block × Bool :=
  let idx_min := idx_min_by_duration ps
  let bl1 := Block.set_min_profile bl (ps.getD idx_min {})
  if ps.length = 3 then
    let i1 := (idx_min + 1) % 3
    let i2 := (idx_min + 2) % 3
    ({ bl1 with a := some (BlockInterval.from_profiles (ps.getD i1 {}) (ps.getD i2 {})) }, true)
  else if ps.length = 5 then
    let i1 := (idx_min + 1) % 5
    let i2 := (idx_min + 2) % 5
    let i3 := (idx_min + 3) % 5
    let i4 := (idx_min + 4) % 5
    if (ps.getD i1 {}).direction = (ps.getD i2 {}).direction then
      ({ bl1 with
          a := some (BlockInterval.from_profiles (ps.getD i1 {}) (ps.getD i2 {})),
          b := some (BlockInterval.from_profiles (ps.getD i3 {}) (ps.getD i4 {})) }, true)
    else
      ({ bl1 with
          a := some (BlockInterval.from_profiles (ps.getD i1 {}) (ps.getD i4 {})),
          b := some (BlockInterval.from_profiles (ps.getD i2 {}) (ps.getD i3 {})) }, true)
  else
    (bl1, false)

/-- Collapse of the valid-profile set into a block, `block.rs`
`Block::calculate_block` (lines 38-152).  The `[Profile; 6]` array with its
counter is modelled as the list of its first `counter` entries;
`remove_profile` (which shifts the tail left and decrements the counter) is
`List.eraseIdx`. -/
def Block.calculate_block (bl : Block) (ps : List Profile)
    (numerical_robust : Option Bool) : Block × Bool :=
  if ps.length = 1 then
    (Block.set_min_profile bl (ps.getD 0 {}), true)
  else if ps.length = 2 then
    let q0 := ps.getD 0 {}
    let q1 := ps.getD 1 {}
    if |q0.ts6 - q1.ts6| < 8 * EPSILON then
      (Block.set_min_profile bl q0, true)
    else if numerical_robust.getD true = true then
      let idx_min := if q0.ts6 < q1.ts6 then 0 else 1
      let idx_else_1 := (idx_min + 1) % 2
      let bl1 := Block.set_min_profile bl (ps.getD idx_min {})
      ({ bl1 with
          a := some (BlockInterval.from_profiles (ps.getD idx_min {}) (ps.getD idx_else_1 {})) },
        true)
    else
      -- `numerical_robust == false`: fall through to the common tail
      Block.calculate_block_tail bl ps
  else if ps.length = 4 then
    let q0 := ps.getD 0 {}
    let q1 := ps.getD 1 {}
    let q2 := ps.getD 2 {}
    let q3 := ps.getD 3 {}
    if |q0.ts6 - q1.ts6| < 32 * EPSILON ∧ q0.direction ≠ q1.direction then
      Block.calculate_block_tail bl (ps.eraseIdx 1)
    else if (|q2.ts6 - q3.ts6| < 256 * EPSILON ∧ q2.direction ≠ q3.direction) ∨
        (|q0.ts6 - q3.ts6| < 256 * EPSILON ∧ q0.direction ≠ q3.direction) then
      Block.calculate_block_tail bl (ps.eraseIdx 3)
    else
      (bl, false)
  else if ps.length % 2 = 0 then
    (bl, false)
  else
    Block.calculate_block_tail bl ps

/-- Modelled from the spec wording of C8: the number of candidate profiles
remaining after the duplicate-collapse rules (the `n = 2` near-equal merge,
the `numerical_robust` two-profile resolution, and the `n = 4`
opposite-direction collapse), stated with exactly the conditions the code
tests. -/
def remainingAfterCollapse (ps : List Profile) (numerical_robust : Option Bool) : ℕ :=
  if ps.length = 2 then
    let q0 := ps.getD 0 {}
    let q1 := ps.getD 1 {}
    if |q0.ts6 - q1.ts6| < 8 * EPSILON then 1
    else if numerical_robust.getD true = true then 1
    else 2
  else if ps.length = 4 then
    let q0 := ps.getD 0 {}
    let q1 := ps.getD 1 {}
    let q2 := ps.getD 2 {}
    let q3 := ps.getD 3 {}
    if |q0.ts6 - q1.ts6| < 32 * EPSILON ∧ q0.direction ≠ q1.direction then 3
    else if (|q2.ts6 - q3.ts6| < 256 * EPSILON ∧ q2.direction ≠ q3.direction) ∨
        (|q0.ts6 - q3.ts6| < 256 * EPSILON ∧ q0.direction ≠ q3.direction) then 3
    else 4
  else ps.length

/-- Polynomial derivative over descending-power coefficient lists,
`roots.rs` `poly_deri`: `deriv[i] = (len - 1 - i) * coeffs[i]` for
`i < len - 1` (callers always pass a non-empty list). -/
def poly_deri (coeffs : List ℚ) : List ℚ :=
  (List.range (coeffs.length - 1)).map
    (fun i => ((coeffs.length - 1 - i : ℕ) : ℚ) * coeffs.getD i 0)

/-- Polynomial evaluation, `roots.rs` `poly_eval`: Horner-style accumulation
over the reversed list, with the exact special cases for `|x| < EPSILON`
(take the constant term) and `|x - 1| < EPSILON` (sum the coefficients). -/
def poly_eval (p : List ℚ) (x : ℚ) : ℚ :=
  if |x| < EPSILON then p.getD (p.length - 1) 0
  else if |x - 1| < EPSILON then p.sum
  else (p.reverse.foldl (fun acc c => (acc.1 + c * acc.2, acc.2 * x)) ((0 : ℚ), (1 : ℚ))).1

/-- Loop state of `shrink_interval` (`roots.rs` lines 442-446): the interval
ends `l`, `h`, the current iterate `rts`, the step sizes, the cached values
`f = poly_eval p rts` and `df = poly_eval deriv rts`, and a flag recording
that a `break` was executed. -/
structure ShrinkState where
  l : ℚ
  h : ℚ
  rts : ℚ
  dxold : ℚ
  dx : ℚ
  f : ℚ
  df : ℚ
  done : Bool
  deriving DecidableEq

/-- One iteration of the `for` loop of `shrink_interval` (`roots.rs` lines
447-478).  A `break` is modelled by setting `done`; in ℚ the division
`f / df` is total (`x / 0 = 0`), whereas `f64` would produce a non-finite
value — the iteration-bound claim C9 does not depend on the values. -/
def shrinkStep (p deriv : List ℚ) (s : ShrinkState) : ShrinkState :=
  let bisect : Prop :=
    0 < ((s.rts - s.h) * s.df - s.f) * ((s.rts - s.l) * s.df - s.f) ∨
      |s.dxold| * |s.df| < |2 * s.f|
  if bisect then
    let dxold := s.dx
    let dx := (s.h - s.l) / 2
    let rts := s.l + dx
    if |s.l - rts| < EPSILON then
      { s with dxold := dxold, dx := dx, rts := rts, done := true }
    else if |dx| < TOLERANCE then
      { s with dxold := dxold, dx := dx, rts := rts, done := true }
    else
      let f := poly_eval p rts
      let df := poly_eval deriv rts
      if f < 0 then { l := rts, h := s.h, rts := rts, dxold := dxold, dx := dx, f := f, df := df, done := false }
      else { l := s.l, h := rts, rts := rts, dxold := dxold, dx := dx, f := f, df := df, done := false }
  else
    let dxold := s.dx
    let dx := s.f / s.df
    let temp := s.rts
    let rts := s.rts - dx
    if |temp - rts| < EPSILON then
      { s with dxold := dxold, dx := dx, rts := rts, done := true }
    else if |dx| < TOLERANCE then
      { s with dxold := dxold, dx := dx, rts := rts, done := true }
    else
      let f := poly_eval p rts
      let df := poly_eval deriv rts
      if f < 0 then { l := rts, h := s.h, rts := rts, dxold := dxold, dx := dx, f := f, df := df, done := false }
      else { l := s.l, h := rts, rts := rts, dxold := dxold, dx := dx, f := f, df := df, done := false }

/-- The bounded loop of `shrink_interval` together with the number of loop
iterations actually executed; the loop stops at the `break` flag or at the
fuel bound `MAX_ITS`. -/
def shrinkLoop (p deriv : List ℚ) : ℕ → ShrinkState → ShrinkState × ℕ
  | 0, s => (s, 0)
  | n + 1, s =>
    if s.done then (s, 0)
    else
      let r := shrinkLoop p deriv n (shrinkStep p deriv s)
      (r.1, r.2 + 1)

/-- Hybrid Newton/bisection root refinement, `roots.rs` `shrink_interval`
(lines 424-481), instrumented with the executed iteration count. -/
def shrink_interval_counted (p : List ℚ) (l h : ℚ) (max_its : ℕ) : ℚ × ℕ :=
  let deriv := poly_deri p
  let fl := poly_eval p l
  let fh := poly_eval p h
  if fl = 0 then (l, 0)
  else if fh = 0 then (h, 0)
  else
    let lh := if 0 < fl then (h, l) else (l, h)
    let rts := (lh.1 + lh.2) / 2
    let dxold := |lh.2 - lh.1|
    let s0 : ShrinkState :=
      { l := lh.1, h := lh.2, rts := rts, dxold := dxold, dx := dxold,
        f := poly_eval p rts, df := poly_eval deriv rts, done := false }
    let r := shrinkLoop p deriv max_its s0
    (r.1.rts, r.2)

/-- The default-cap wrapper `shrink_interval_default` (`roots.rs` line 419):
`MAX_ITS = 128`. -/
def shrink_interval_default (p : List ℚ) (l h : ℚ) : ℚ :=
  (shrink_interval_counted p l h 128).1

/-- Result of update/calculate, `result.rs` `RuckigResult`. -/
inductive RuckigResult
  | Working | Finished | Error | ErrorInvalidInput | ErrorTrajectoryDuration
  | ErrorPositionalLimits | ErrorZeroLimits | ErrorExecutionTimeCalculation
  | ErrorSynchronizationCalculation
  deriving DecidableEq

/-- Control interface selector, `input_parameter.rs` `ControlInterface`. -/
inductive ControlInterface
  | Position | Velocity | Acceleration
  deriving DecidableEq

/-- Synchronization behaviour, `input_parameter.rs` `Synchronization`
(`NoSync` renders the Rust variant `None`). -/
inductive Synchronization
  | Phase | Time | TimeIfNecessary | NoSync
  deriving DecidableEq

/-- Duration discretization, `input_parameter.rs` `DurationDiscretization`. -/
inductive DurationDiscretization
  | Continuous | Discrete
  deriving DecidableEq

/-- Input record of the driver, `input_parameter.rs` `InputParameter`.
Kinematic vectors are lists of rationals (the infinite default limits of the
Rust constructor are not representable in ℚ; no claim below depends on
them). -/
structure InputParameter where
  degrees_of_freedom : ℕ := 0
  control_interface : ControlInterface := ControlInterface.Position
  synchronization : Synchronization := Synchronization.Time
  duration_discretization : DurationDiscretization := DurationDiscretization.Continuous
  current_position : List ℚ := []
  current_velocity : List ℚ := []
  current_acceleration : List ℚ := []
  target_position : List ℚ := []
  target_velocity : List ℚ := []
  target_acceleration : List ℚ := []
  max_velocity : List ℚ := []
  max_acceleration : List ℚ := []
  max_jerk : List ℚ := []
  min_velocity : Option (List ℚ) := none
  min_acceleration : Option (List ℚ) := none
  enabled : List Bool := []
  per_dof_control_interface : Option (List ControlInterface) := none
  per_dof_synchronization : Option (List Synchronization) := none
  minimum_duration : Option ℚ := none
  interrupt_calculation_duration : Option ℚ := none
  deriving DecidableEq

/-- Equality used by the driver to detect input changes: the `PartialEq`
implementation of `input_parameter.rs` (lines 188-210), which compares all
fields except `degrees_of_freedom` and `interrupt_calculation_duration`. -/
def InputParameter.eq (a b : InputParameter) : Prop :=
  a.current_position = b.current_position ∧
  a.current_velocity = b.current_velocity ∧
  a.current_acceleration = b.current_acceleration ∧
  a.target_position = b.target_position ∧
  a.target_velocity = b.target_velocity ∧
  a.target_acceleration = b.target_acceleration ∧
  a.max_velocity = b.max_velocity ∧
  a.max_acceleration = b.max_acceleration ∧
  a.max_jerk = b.max_jerk ∧
  a.enabled = b.enabled ∧
  a.minimum_duration = b.minimum_duration ∧
  a.min_velocity = b.min_velocity ∧
  a.min_acceleration = b.min_acceleration ∧
  a.control_interface = b.control_interface ∧
  a.synchronization = b.synchronization ∧
  a.duration_discretization = b.duration_discretization ∧
  a.per_dof_control_interface = b.per_dof_control_interface ∧
  a.per_dof_synchronization = b.per_dof_synchronization

instance (a b : InputParameter) : Decidable (InputParameter.eq a b) := by
  unfold InputParameter.eq
  infer_instance

/-- Driver state, `ruckig.rs` `Ruckig` (the calculator itself is passed to
`update` as a function, see `Ruckig.update`). -/
structure Ruckig where
  current_input : InputParameter := {}
  current_input_initialized : Bool := false
  degrees_of_freedom : ℕ := 0
  delta_time : ℚ := 0

/-- Output record, `output_parameter.rs` `OutputParameter`, generic over the
trajectory representation `T`.  The wall-clock `calculation_duration` field
is not modellable and is omitted; no claim refers to it. -/
structure OutputParameter (T : Type) where
  degrees_of_freedom : ℕ := 0
  trajectory : T
  new_position : List ℚ := []
  new_velocity : List ℚ := []
  new_acceleration : List ℚ := []
  new_jerk : List ℚ := []
  time : ℚ := 0
  new_section : ℕ := 0
  did_section_change : Bool := false
  new_calculation : Bool := false

/-- State copy-back of `OutputParameter::pass_to_input`
(`output_parameter.rs` lines 109-113), with the sampled state given as the
`(p, v, a, j, section)` tuple produced by the sampling function. -/
def pass_to_input (inp : InputParameter)
    (smp : List ℚ × List ℚ × List ℚ × List ℚ × ℕ) : InputParameter :=
  { inp with
    current_position := smp.1,
    current_velocity := smp.2.1,
    current_acceleration := smp.2.2.1 }

/-- Steps 3-6 of `Ruckig::update` (`ruckig.rs` lines 286-307): advance the
output time by `delta_time`, sample the trajectory, report forward section
changes, copy the new state back into the stored input, and return
`Finished` iff the advanced time exceeds the trajectory duration. -/
def Ruckig.updateTail {T : Type}
    (atTimeFn : T → ℚ → List ℚ × List ℚ × List ℚ × List ℚ × ℕ)
    (durationFn : T → ℚ) (r : Ruckig) (out : OutputParameter T) :
    Except Unit (Ruckig × OutputParameter T × RuckigResult) :=
  let old_section := out.new_section
  let time1 := out.time + r.delta_time
  let smp := atTimeFn out.trajectory time1
  let out2 : OutputParameter T :=
    { out with
      time := time1,
      new_position := smp.1,
      new_velocity := smp.2.1,
      new_acceleration := smp.2.2.1,
      new_jerk := smp.2.2.2.1,
      new_section := smp.2.2.2.2,
      did_section_change := decide (old_section < smp.2.2.2.2) }
  let r2 : Ruckig := { r with current_input := pass_to_input r.current_input smp }
  if durationFn out2.trajectory < time1 then
    Except.ok (r2, out2, RuckigResult.Finished)
  else
    Except.ok (r2, out2, RuckigResult.Working)

/-- The driver tick, `ruckig.rs` `Ruckig::update` (lines 261-308).  The
calculator call `self.calculate` is passed in as `calcFn` (its errors
propagate through `?`), trajectory sampling as `atTimeFn`, and the duration
accessor as `durationFn`.  `throws` selects between the two shipped error
handlers on the DoF-mismatch guard: `ThrowErrorHandler` propagates an error,
`IgnoreErrorHandler` falls through to `return Ok(RuckigResult::Error)`. -/
def Ruckig.update {T : Type} (calcFn : InputParameter → Except Unit T)
    (atTimeFn : T → ℚ → List ℚ × List ℚ × List ℚ × List ℚ × ℕ)
    (durationFn : T → ℚ) (throws : Bool)
    (r : Ruckig) (inp : InputParameter) (out : OutputParameter T) :
    Except Unit (Ruckig × OutputParameter T × RuckigResult) :=
  if r.degrees_of_freedom = 0 ∧
      (inp.degrees_of_freedom ≠ r.degrees_of_freedom ∨
        out.degrees_of_freedom ≠ r.degrees_of_freedom) then
    if throws then Except.error () else Except.ok (r, out, RuckigResult.Error)
  else
    let out1 : OutputParameter T := { out with new_calculation := false }
    if r.current_input_initialized = false ∨ ¬ InputParameter.eq inp r.current_input then
      match calcFn inp with
      | Except.error e => Except.error e
      | Except.ok tr =>
        let out2 : OutputParameter T := { out1 with trajectory := tr, new_calculation := true }
        let r1 : Ruckig :=
          { r with current_input := inp, current_input_initialized := true }
        Ruckig.updateTail atTimeFn durationFn r1 out2
    else
      Ruckig.updateTail atTimeFn durationFn r out1

/-- The output record produced by an update call, when it did not throw. -/
def updOut {T : Type} (e : Except Unit (Ruckig × OutputParameter T × RuckigResult)) :
    Option (OutputParameter T) :=
  e.toOption.map (fun x => x.2.1)

/-- The result code produced by an update call, when it did not throw. -/
def updResult {T : Type} (e : Except Unit (Ruckig × OutputParameter T × RuckigResult)) :
    Option RuckigResult :=
  e.toOption.map (fun x => x.2.2)

/-- The driver state after an update call, when it did not throw. -/
def updState {T : Type} (e : Except Unit (Ruckig × OutputParameter T × RuckigResult)) :
    Option Ruckig :=
  e.toOption.map (fun x => x.1)

/-- Stub calculator returning the constant trajectory `d` (trajectories are
represented by their duration for the driver-logic claims). -/
def calcConst (d : ℚ) : InputParameter → Except Unit ℚ := fun _ => Except.ok d

/-- Stub sampler. -/
def atTimeStub : ℚ → ℚ → List ℚ × List ℚ × List ℚ × List ℚ × ℕ :=
  fun _ _ => ([], [], [], [], 0)

/-- Insertion of a value into a sorted list (ascending); used to model the
`sort_by` on the candidate synchronization times. -/
def insertSorted (x : ℚ) : List ℚ → List ℚ
  | [] => [x]
  | y :: ys => if x ≤ y then x :: y :: ys else y :: insertSorted x ys

/-- Ascending sort of the candidate times (`calculator_target.rs` lines
214-219 sort an index array by value; sorting the value list directly is
equivalent for the scan that follows). -/
def sortAsc (l : List ℚ) : List ℚ := l.foldr insertSorted []

/-- Discrete-duration rounding of one candidate (`calculator_target.rs`
lines 188-199): the `f64` remainder `t % delta_time` (nonnegative here) is
`t - delta_time * ⌊t / delta_time⌋`; a remainder above `eps = EPSILON` is
rounded up to the next multiple of the control cycle. -/
def roundUpDiscrete (delta_time t : ℚ) : ℚ :=
  let remainder := t - delta_time * ⌊t / delta_time⌋
  if EPSILON < remainder then t + (delta_time - remainder) else t

/-- Synchronization-time selection of `TargetCalculator::synchronize`
(`calculator_target.rs` lines 148-273) specialized to one enabled DoF with
`Time` synchronization: the candidates are the DoF's `t_min`, the right ends
of its blocked intervals, and the optional `minimum_duration`; missing
entries are infinite in the source and are dropped here before the sort,
which is equivalent because the scan skips infinite entries.  The scan picks
the first candidate, in ascending order, that is not blocked and not below
`minimum_duration` (`t_min.unwrap_or(0.0)`). -/
def synchronize1 (block : Block) (t_min_opt : Option ℚ) (discrete_duration : Bool)
    (delta_time : ℚ) : Option ℚ :=
  let cands : List ℚ :=
    [block.t_min] ++
      (match block.a with | some i => [i.right] | none => []) ++
      (match block.b with | some i => [i.right] | none => []) ++
      (match t_min_opt with | some m => [m] | none => [])
  let cands := if discrete_duration then cands.map (roundUpDiscrete delta_time) else cands
  (sortAsc cands).find? (fun c => !block.is_blocked c && decide (t_min_opt.getD 0 ≤ c))

/-- Outcome of the head of `TargetCalculator::calculate`; `Continue` means
control reaches the phase-synchronization / step-2 part of the function,
which is beyond the prefix the claims C2 and C7 are about. -/
inductive Calc1Result
  | Working | ErrorZeroLimits | ErrorExecutionTimeCalculation
  | ErrorSynchronizationCalculation | ErrorTrajectoryDuration | Continue
  deriving DecidableEq

/-- Duration bookkeeping of `TargetCalculator::calculate` for one DoF. -/
structure Calc1Out where
  duration : ℚ
  independent_min_duration : ℚ
  result : Calc1Result
  deriving DecidableEq

/-- Head of `TargetCalculator::calculate` (`calculator_target.rs` lines
276-581) for a single enabled position-interface DoF with `Time`
synchronization.  `step1` is the outcome of the Step-1 solver (`none` means
no profile was found), `zero_limits` the zero-limit test of lines 491-497
and 534-547, and `imd_prev` the value `independent_min_durations[0]` holds
before the call (it is only overwritten after a successful Step-1, line
514).  The single-DoF continuous shortcut (lines 517-522) returns before
the synchronize call and before the `7.6e3` duration guard (line 571); a
synchronized duration within `EPSILON` of zero is accepted as an end-state
trajectory (line 575). -/
def TargetCalculator.calculate1 (step1 : Option Block) (zero_limits : Bool)
    (imd_prev : ℚ) (minimum_duration : Option ℚ) (discrete_duration : Bool)
    (delta_time : ℚ) (return_error_at_maximal_duration : Bool) : Calc1Out :=
  match step1 with
  | none =>
    { duration := 0, independent_min_duration := imd_prev,
      result := if zero_limits then Calc1Result.ErrorZeroLimits
                else Calc1Result.ErrorExecutionTimeCalculation }
  | some block =>
    let imd := block.t_min
    if minimum_duration = none ∧ discrete_duration = false then
      { duration := block.t_min, independent_min_duration := imd,
        result := Calc1Result.Working }
    else
      match synchronize1 block minimum_duration discrete_duration delta_time with
      | none =>
        { duration := 0, independent_min_duration := imd,
          result := if zero_limits then Calc1Result.ErrorZeroLimits
                    else Calc1Result.ErrorSynchronizationCalculation }
      | some t_sync =>
        if return_error_at_maximal_duration = true ∧ 7600 < t_sync then
          { duration := t_sync, independent_min_duration := imd,
            result := Calc1Result.ErrorTrajectoryDuration }
        else if |t_sync - 0| < EPSILON then
          { duration := t_sync, independent_min_duration := imd,
            result := Calc1Result.Working }
        else
          { duration := t_sync, independent_min_duration := imd,
            result := Calc1Result.Continue }

/-- Concrete seven-segment profile witnessing `c1_boundary_match`: unit
jerk-bang segments `t = [1,0,1,0,1,0,1]` from rest at 0 to rest at
position 2. -/
def c1wpr : Profile :=
  { t0 := 1, t2 := 1, t4 := 1, t6 := 1, pf := 2 }

/-- C4, amended: a disabled DoF is sampled as the zero-jerk (constant
acceleration) extrapolation of its current state: for every `t ≥ 0`,
`at_time` yields `p = cp + t·cv + t²·ca/2`, `v = cv + t·ca`, `a = ca`.
It is constant and equal to the current state only when `cv = ca = 0`. -/
theorem c4_amended (cp cv ca dur t : ℚ) (ht : 0 ≤ t) :
    at_time_single_section (disabled_dof_profile cp cv ca) dur t = integrate t cp cv ca 0 := by
  simp only [at_time_single_section, state_to_integrate_from_dof, disabled_dof_profile]
  norm_num
  intro _ h2
  exact absurd h2 (not_lt.mpr ht)

/-- Witness for `c4_amended` at `(cp, cv, ca) = (0, 1, 0)`, `t = 1`. -/
theorem c4_amended_witness :
    0 ≤ (1 : ℚ) ∧
      at_time_single_section (disabled_dof_profile 0 1 0) 2 1 = integrate 1 0 1 0 0 :=
  ⟨by norm_num, c4_amended 0 1 0 2 1 (by norm_num)⟩

/-- A successful `Profile::check` in the upward direction (`0 < v_max`)
constrains the boundary accelerations `a[1], a[3], a[5]` to
`[a_min - A_EPS, a_max + A_EPS]` and the plateau velocities `v[3..7]` to
`[v_min - V_EPS, v_max + V_EPS]` (`profile.rs` lines 419-439). -/
lemma check_true_bounds (pr : Profile) (cs : ControlSigns) (lim : ReachedLimits)
    (jf v_max v_min a_max a_min : ℚ) (q : Profile)
    (hchk : Profile.check pr cs lim false jf v_max v_min a_max a_min = (q, true))
    (hv : 0 < v_max) :
    (a_min - A_EPS ≤ q.a1 ∧ q.a1 ≤ a_max + A_EPS) ∧
    (a_min - A_EPS ≤ q.a3 ∧ q.a3 ≤ a_max + A_EPS) ∧
    (a_min - A_EPS ≤ q.a5 ∧ q.a5 ≤ a_max + A_EPS) ∧
    (v_min - V_EPS ≤ q.v3 ∧ q.v3 ≤ v_max + V_EPS) ∧
    (v_min - V_EPS ≤ q.v4 ∧ q.v4 ≤ v_max + V_EPS) ∧
    (v_min - V_EPS ≤ q.v5 ∧ q.v5 ≤ v_max + V_EPS) ∧
    (v_min - V_EPS ≤ q.v6 ∧ q.v6 ≤ v_max + V_EPS) := by
  simp only [Profile.check] at hchk
  by_cases hc1 : (pr.t0 < 0 ∨ pr.t1 < 0 ∨ pr.t2 < 0 ∨ pr.t3 < 0 ∨ pr.t4 < 0 ∨ pr.t5 < 0 ∨
      pr.t6 < 0)
  · rw [if_pos hc1] at hchk
    simp at hchk
  rw [if_neg hc1] at hchk
  by_cases hc2 : (isVelLimits lim = true ∧ pr.t3 < EPSILON)
  · rw [if_pos hc2] at hchk
    simp at hchk
  rw [if_neg hc2] at hchk
  by_cases hc3 : (isAcc0Limits lim = true ∧ pr.t1 < EPSILON)
  · rw [if_pos hc3] at hchk
    simp at hchk
  rw [if_neg hc3] at hchk
  by_cases hc4 : (isAcc1Limits lim = true ∧ pr.t5 < EPSILON)
  · rw [if_pos hc4] at hchk
    simp at hchk
  rw [if_neg hc4] at hchk
  by_cases hc5 : T_MAX < pr.t0 + pr.t1 + pr.t2 + pr.t3 + pr.t4 + pr.t5 + pr.t6
  · rw [if_pos hc5] at hchk
    simp at hchk
  rw [if_neg hc5] at hchk
  rw [Prod.mk.injEq] at hchk
  obtain ⟨hq, hP⟩ := hchk
  rw [decide_eq_true_eq] at hP
  subst hq
  obtain ⟨-, -, -, -, -, -, -, -, hA1, hA3, hA5, hV3, hV4, hV5, hV6⟩ := hP
  have hUP : Direction.UP = Direction.UP := rfl
  simp only [if_pos hv, if_pos hUP] at hA1 hA3 hA5 hV3 hV4 hV5 hV6
  exact ⟨hA1, hA3, hA5, hV3, hV4, hV5, hV6⟩

/-- C3, amended: the slack constants satisfy `V_EPS = A_EPS = J_EPS = 1e-12`
(not `2e-14`); accordingly the full validator only accepts jerk values of
magnitude below `|j_max| + 1e-12`, and a profile accepted by `check`
(upward direction) has its boundary accelerations within
`[a_min - 1e-12, a_max + 1e-12]` and its plateau velocities within
`[v_min - 1e-12, v_max + 1e-12]`. -/
theorem c3_amended :
    V_EPS = 1 / 10 ^ 12 ∧ A_EPS = 1 / 10 ^ 12 ∧ J_EPS = 1 / 10 ^ 12 ∧
      (∀ (pr : Profile) (cs : ControlSigns) (lim : ReachedLimits)
        (tf jf v_max v_min a_max a_min j_max : ℚ),
        (Profile.check_with_timing_full pr cs lim tf jf v_max v_min a_max a_min j_max).2 =
            true →
          |jf| < |j_max| + 1 / 10 ^ 12) ∧
      (∀ (pr : Profile) (cs : ControlSigns) (lim : ReachedLimits)
        (jf v_max v_min a_max a_min : ℚ) (q : Profile),
        Profile.check pr cs lim false jf v_max v_min a_max a_min = (q, true) →
        0 < v_max →
          (a_min - 1 / 10 ^ 12 ≤ q.a1 ∧ q.a1 ≤ a_max + 1 / 10 ^ 12) ∧
          (a_min - 1 / 10 ^ 12 ≤ q.a3 ∧ q.a3 ≤ a_max + 1 / 10 ^ 12) ∧
          (a_min - 1 / 10 ^ 12 ≤ q.a5 ∧ q.a5 ≤ a_max + 1 / 10 ^ 12) ∧
          (v_min - 1 / 10 ^ 12 ≤ q.v3 ∧ q.v3 ≤ v_max + 1 / 10 ^ 12) ∧
          (v_min - 1 / 10 ^ 12 ≤ q.v4 ∧ q.v4 ≤ v_max + 1 / 10 ^ 12) ∧
          (v_min - 1 / 10 ^ 12 ≤ q.v5 ∧ q.v5 ≤ v_max + 1 / 10 ^ 12) ∧
          (v_min - 1 / 10 ^ 12 ≤ q.v6 ∧ q.v6 ≤ v_max + 1 / 10 ^ 12)) := by
  refine ⟨rfl, rfl, rfl, ?_, ?_⟩
  · intro pr cs lim tf jf v_max v_min a_max a_min j_max h
    by_cases hj : |jf| < |j_max| + J_EPS
    · simpa [J_EPS] using hj
    · rw [Profile.check_with_timing_full, if_neg hj] at h
      simp at h
  · intro pr cs lim jf v_max v_min a_max a_min q hchk hv
    have h := check_true_bounds pr cs lim jf v_max v_min a_max a_min q hchk hv
    simpa [A_EPS, V_EPS] using h

/-- Witness for `c3_amended`: the all-zero profile is accepted by the full
validator with `jf = j_max = 1` and `v ∈ [-1, 1]`, `a ∈ [-1, 1]`; its
boundary acceleration `a[1]` lies within the 1e-12-widened window. -/
theorem c3_amended_witness :
    (|(1 : ℚ)| < |(1 : ℚ)| + 1 / 10 ^ 12) ∧
      ((-1 : ℚ) - 1 / 10 ^ 12 ≤
          (Profile.check {} ControlSigns.UDDU ReachedLimits.None false 1 1 (-1) 1 (-1)).1.a1 ∧
        (Profile.check {} ControlSigns.UDDU ReachedLimits.None false 1 1 (-1) 1 (-1)).1.a1 ≤
          (1 : ℚ) + 1 / 10 ^ 12) := by
  have h2 : (Profile.check {} ControlSigns.UDDU ReachedLimits.None false 1 1 (-1) 1
      (-1)).2 = true := by
    norm_num [Profile.check, isVelLimits, isAcc0Limits, isAcc1Limits, EPSILON, T_MAX,
      V_EPS, A_EPS, P_PRECISION, V_PRECISION, A_PRECISION]
  constructor
  · exact c3_amended.2.2.2.1 {} ControlSigns.UDDU ReachedLimits.None 0 1 1 (-1) 1 (-1) 1
      (by norm_num [Profile.check_with_timing_full, Profile.check_with_timing, Profile.check,
        isVelLimits, isAcc0Limits, isAcc1Limits, J_EPS, EPSILON, T_MAX, V_EPS, A_EPS,
        P_PRECISION, V_PRECISION, A_PRECISION])
  · exact (c3_amended.2.2.2.2 {} ControlSigns.UDDU ReachedLimits.None 1 1 (-1) 1 (-1)
      (Profile.check {} ControlSigns.UDDU ReachedLimits.None false 1 1 (-1) 1 (-1)).1
      (by rw [← h2]) (by norm_num)).1

/-- C10: when both brake segment durations are non-positive,
`BrakeProfile::finalize` only resets the brake duration to 0 and leaves the
caller's `(ps, vs, as_)` state untouched, so the main profile plans from the
original current state. -/
theorem c10_finalize_noop (b : BrakeProfile) (ps vs az : ℚ)
    (h0 : b.t0 ≤ 0) (h1 : b.t1 ≤ 0) :
    BrakeProfile.finalize b ps vs az = ({ b with duration := 0 }, ps, vs, az) := by
  rw [BrakeProfile.finalize, if_pos ⟨h0, h1⟩]

/-- Witness for `c10_finalize_noop` on the all-zero brake profile. -/
theorem c10_finalize_noop_witness :
    BrakeProfile.finalize {} 5 6 7 = ({ ({} : BrakeProfile) with duration := 0 }, 5, 6, 7) :=
  c10_finalize_noop {} 5 6 7 (by norm_num) (by norm_num)

/-- The Bool returned by the common tail depends only on the remaining
candidate count: 3 or 5 succeed, everything else fails. -/
lemma calculate_block_tail_snd (bl : Block) (ps : List Profile) :
    (Block.calculate_block_tail bl ps).2 = true ↔ (ps.length = 3 ∨ ps.length = 5) := by
  unfold Block.calculate_block_tail
  split_ifs with h3 h5 <;> simp_all [apply_ite Prod.snd]

/-- C8: `calculate_block` succeeds exactly when the number of candidate
profiles remaining after the duplicate-collapse rules is 1, 3 or 5; in
particular an even remaining count (0, 2, 4 or 6) always fails. -/
theorem c8_calculate_block_parity (bl : Block) (ps : List Profile)
    (numerical_robust : Option Bool) (h : ps.length ≤ 6) :
    ((Block.calculate_block bl ps numerical_robust).2 = true ↔
        (remainingAfterCollapse ps numerical_robust = 1 ∨
         remainingAfterCollapse ps numerical_robust = 3 ∨
         remainingAfterCollapse ps numerical_robust = 5)) ∧
      (remainingAfterCollapse ps numerical_robust % 2 = 0 →
        (Block.calculate_block bl ps numerical_robust).2 = false) := by
  have hmain : (Block.calculate_block bl ps numerical_robust).2 = true ↔
      (remainingAfterCollapse ps numerical_robust = 1 ∨
       remainingAfterCollapse ps numerical_robust = 3 ∨
       remainingAfterCollapse ps numerical_robust = 5) := by
    rcases ps with _ | ⟨q0, _ | ⟨q1, _ | ⟨q2, _ | ⟨q3, _ | ⟨q4, _ | ⟨q5, rest⟩⟩⟩⟩⟩⟩ <;>
      first
        | (exfalso; simp only [List.length_cons] at h; omega)
        | (simp only [Block.calculate_block, remainingAfterCollapse, calculate_block_tail_snd,
            List.length_nil, List.length_cons, List.eraseIdx] <;>
            split_ifs <;>
            simp_all [calculate_block_tail_snd])
  refine ⟨hmain, fun heven => ?_⟩
  rcases Bool.eq_false_or_eq_true (Block.calculate_block bl ps numerical_robust).2 with hb | hb
  · rcases hmain.mp hb with h' | h' | h' <;> omega
  · exact hb

/-- Witness for `c8_calculate_block_parity` on a single candidate profile. -/
theorem c8_calculate_block_parity_witness :
    ((Block.calculate_block {} [{}] (some true)).2 = true ↔
        (remainingAfterCollapse [{}] (some true) = 1 ∨
         remainingAfterCollapse [{}] (some true) = 3 ∨
         remainingAfterCollapse [{}] (some true) = 5)) ∧
      (remainingAfterCollapse [{}] (some true) % 2 = 0 →
        (Block.calculate_block {} [{}] (some true)).2 = false) :=
  c8_calculate_block_parity {} [{}] (some true) (by norm_num)

/-- The loop executes at most `fuel` iterations. -/
lemma shrinkLoop_le (p deriv : List ℚ) (n : ℕ) (s : ShrinkState) :
    (shrinkLoop p deriv n s).2 ≤ n := by
  induction n generalizing s with
  | zero => simp [shrinkLoop]
  | succ k ih =>
    rw [shrinkLoop]
    split_ifs
    · simp
    · simpa using ih (shrinkStep p deriv s)

/-- C9: the hybrid Newton/bisection refinement is a total function (it is
defined by structural recursion on the fuel) and, for every coefficient list
and interval, the number of executed loop iterations is bounded by the cap
`MAX_ITS = 128`; its value is the one returned by `shrink_interval_default`. -/
theorem c9_shrink_interval_bounded (p : List ℚ) (l h : ℚ) :
    (shrink_interval_counted p l h 128).2 ≤ 128 ∧
      shrink_interval_default p l h = (shrink_interval_counted p l h 128).1 := by
  refine ⟨?_, rfl⟩
  simp only [shrink_interval_counted]
  split_ifs <;> simp [shrinkLoop_le]

/-- C5, amended (the `output.time = 0` reset does not exist in the code; the
rest of the claim holds): under a passing DoF guard, a call with the stored
previous input uninitialized or different from the given input recomputes
the trajectory via the calculator, marks `new_calculation = true`, stores
the input (with its current state overwritten by the sampled state, step 5),
and advances `output.time` by exactly `delta_time` from its previous value;
any other call keeps the trajectory unchanged with
`new_calculation = false`. -/
theorem c5_amended {T : Type} (calcFn : InputParameter → Except Unit T)
    (atTimeFn : T → ℚ → List ℚ × List ℚ × List ℚ × List ℚ × ℕ)
    (durationFn : T → ℚ) (throws : Bool)
    (r : Ruckig) (inp : InputParameter) (out : OutputParameter T) (tr : T)
    (hguard : ¬ (r.degrees_of_freedom = 0 ∧
        (inp.degrees_of_freedom ≠ r.degrees_of_freedom ∨
          out.degrees_of_freedom ≠ r.degrees_of_freedom))) :
    ((r.current_input_initialized = false ∨ ¬ InputParameter.eq inp r.current_input) →
        calcFn inp = Except.ok tr →
        (updOut (Ruckig.update calcFn atTimeFn durationFn throws r inp out)).map
            (fun o => (o.trajectory, o.new_calculation, o.time)) =
          some (tr, true, out.time + r.delta_time) ∧
        (updState (Ruckig.update calcFn atTimeFn durationFn throws r inp out)).map
            (fun q => (q.current_input_initialized, q.current_input)) =
          some (true, pass_to_input inp (atTimeFn tr (out.time + r.delta_time)))) ∧
      (r.current_input_initialized = true → InputParameter.eq inp r.current_input →
        (updOut (Ruckig.update calcFn atTimeFn durationFn throws r inp out)).map
            (fun o => (o.trajectory, o.new_calculation, o.time)) =
          some (out.trajectory, false, out.time + r.delta_time)) := by
  constructor
  · intro hneed hcalc
    rw [Ruckig.update, if_neg hguard, if_pos hneed, hcalc]
    constructor <;>
      · simp only [Ruckig.updateTail, updOut, updState]
        split_ifs <;> simp [pass_to_input, Except.toOption]
  · intro hinit heq
    have hnot : ¬ (r.current_input_initialized = false ∨ ¬ InputParameter.eq inp r.current_input) := by
      simp [hinit, heq]
    rw [Ruckig.update, if_neg hguard, if_neg hnot]
    simp only [Ruckig.updateTail, updOut]
    split_ifs <;> simp [Except.toOption]

/-- Witness for `c5_amended`: fresh driver, stub calculator returning 7,
previous time 3, delta time 2. -/
theorem c5_amended_witness :
    (updOut (Ruckig.update (calcConst 7) atTimeStub id false
        { current_input := {}, current_input_initialized := false,
          degrees_of_freedom := 1, delta_time := 2 }
        {}
        { trajectory := 0, time := 3 })).map
        (fun o => (o.trajectory, o.new_calculation, o.time)) = some (7, true, 3 + 2) ∧
      (updState (Ruckig.update (calcConst 7) atTimeStub id false
          { current_input := {}, current_input_initialized := false,
            degrees_of_freedom := 1, delta_time := 2 }
          {}
          { trajectory := 0, time := 3 })).map
          (fun q => (q.current_input_initialized, q.current_input)) =
        some (true, pass_to_input {} (atTimeStub 7 (3 + 2))) :=
  (c5_amended (calcConst 7) atTimeStub id false
      { current_input := {}, current_input_initialized := false,
        degrees_of_freedom := 1, delta_time := 2 }
      {} { trajectory := 0, time := 3 } 7 (by norm_num)).1 (Or.inl rfl) rfl

/-- The tail of an update never produces the `Error` code. -/
lemma updateTail_result_ne_error {T : Type}
    (atTimeFn : T → ℚ → List ℚ × List ℚ × List ℚ × List ℚ × ℕ)
    (durationFn : T → ℚ) (r : Ruckig) (out : OutputParameter T) :
    updResult (Ruckig.updateTail atTimeFn durationFn r out) ≠ some RuckigResult.Error := by
  simp only [Ruckig.updateTail, updResult]
  split_ifs <;> simp [Except.toOption]

/-- C6, amended: with the non-throwing error handler, update returns the
`Error` result exactly when the stored DoF count is 0 and the input's or the
output's DoF count differs from it. -/
theorem c6_amended {T : Type} (calcFn : InputParameter → Except Unit T)
    (atTimeFn : T → ℚ → List ℚ × List ℚ × List ℚ × List ℚ × ℕ)
    (durationFn : T → ℚ) (r : Ruckig) (inp : InputParameter) (out : OutputParameter T) :
    updResult (Ruckig.update calcFn atTimeFn durationFn false r inp out) =
        some RuckigResult.Error ↔
      (r.degrees_of_freedom = 0 ∧
        (inp.degrees_of_freedom ≠ r.degrees_of_freedom ∨
          out.degrees_of_freedom ≠ r.degrees_of_freedom)) := by
  constructor
  · intro h
    by_contra hguard
    rw [Ruckig.update, if_neg hguard] at h
    split_ifs at h with hneed
    · cases hcalc : calcFn inp with
      | error e => rw [hcalc] at h; simp [updResult, Except.toOption] at h
      | ok tr =>
        rw [hcalc] at h
        exact updateTail_result_ne_error _ _ _ _ h
    · exact updateTail_result_ne_error _ _ _ _ h
  · intro hguard
    rw [Ruckig.update, if_pos hguard]
    simp [updResult, Except.toOption]

/-- Witness for `c6_amended` (mismatch with stored DoF count 0). -/
theorem c6_amended_witness :
    updResult (Ruckig.update (calcConst 10) atTimeStub id false
        { current_input := {}, current_input_initialized := false,
          degrees_of_freedom := 0, delta_time := 1 }
        { degrees_of_freedom := 2 }
        { degrees_of_freedom := 0, trajectory := 0 }) = some RuckigResult.Error :=
  (c6_amended (calcConst 10) atTimeStub id
      { current_input := {}, current_input_initialized := false,
        degrees_of_freedom := 0, delta_time := 1 }
      { degrees_of_freedom := 2 }
      { degrees_of_freedom := 0, trajectory := 0 }).mpr (by norm_num)

/-- C2: a single-DoF calculation with no `minimum_duration` and continuous
duration discretization takes the shortcut, always succeeds, and its
duration equals `independent_min_durations[0]`, which is the Step-1 minimum
duration `t_min` of that DoF. -/
theorem c2_single_dof_duration (block : Block) (zero_limits : Bool)
    (imd_prev delta_time : ℚ) (guard : Bool) :
    (TargetCalculator.calculate1 (some block) zero_limits imd_prev none false delta_time
        guard).duration =
      (TargetCalculator.calculate1 (some block) zero_limits imd_prev none false delta_time
        guard).independent_min_duration ∧
    (TargetCalculator.calculate1 (some block) zero_limits imd_prev none false delta_time
        guard).independent_min_duration = block.t_min ∧
    (TargetCalculator.calculate1 (some block) zero_limits imd_prev none false delta_time
        guard).result = Calc1Result.Working := by
  simp [TargetCalculator.calculate1]

/-- C7, amended: on every calculation that actually reaches the
synchronization stage (a `minimum_duration` is set or the discretization is
discrete), a synchronized duration above 7.6e3 s with the guard enabled
yields `ErrorTrajectoryDuration`; the single-DoF continuous shortcut
bypasses the guard. -/
theorem c7_amended (block : Block) (zero_limits : Bool) (imd_prev : ℚ)
    (minimum_duration : Option ℚ) (discrete_duration : Bool) (delta_time t_sync : ℚ)
    (hnot_shortcut : ¬ (minimum_duration = none ∧ discrete_duration = false))
    (hsync : synchronize1 block minimum_duration discrete_duration delta_time = some t_sync)
    (hbig : 7600 < t_sync) :
    (TargetCalculator.calculate1 (some block) zero_limits imd_prev minimum_duration
        discrete_duration delta_time true).result = Calc1Result.ErrorTrajectoryDuration := by
  simp only [TargetCalculator.calculate1, if_neg hnot_shortcut, hsync]
  rw [if_pos ⟨trivial, hbig⟩]

/-- Witness for `c7_amended`: `t_min = 100`, `minimum_duration = 8000`. -/
theorem c7_amended_witness :
    (TargetCalculator.calculate1 (some { t_min := 100 }) false 0 (some 8000) false (1 / 100)
        true).result = Calc1Result.ErrorTrajectoryDuration :=
  c7_amended { t_min := 100 } false 0 (some 8000) false (1 / 100) 8000
    (by simp)
    (by norm_num [synchronize1, sortAsc, insertSorted, Block.is_blocked])
    (by norm_num)

/-- Integration over a zero time step is the identity on the state. -/
lemma integrate_zero (p v a j : ℚ) : integrate 0 p v a j = (p, v, a) := by
  simp [integrate]

/-- Facts provided by a successful `Profile::check` with `set_limits = false`
that the boundary-match claim needs: the segment durations are nonnegative,
the start state, targets and brake context are unchanged, `t_sum` holds the
prefix sums, the final state matches the target within the precisions, and
integrating over leading zero-duration segments keeps the start state (with
the `a[3] := 0` pinning of the velocity-plateau tags as the only
exception). -/
lemma check_true_fields (pr : Profile) (cs : ControlSigns) (lim : ReachedLimits)
    (jf v_max v_min a_max a_min : ℚ) (q : Profile)
    (hchk : Profile.check pr cs lim false jf v_max v_min a_max a_min = (q, true)) :
    (0 ≤ pr.t0 ∧ 0 ≤ pr.t1 ∧ 0 ≤ pr.t2 ∧ 0 ≤ pr.t3 ∧ 0 ≤ pr.t4 ∧ 0 ≤ pr.t5 ∧ 0 ≤ pr.t6) ∧
    (q.brake = pr.brake ∧ q.accel = pr.accel ∧ q.p0 = pr.p0 ∧ q.v0 = pr.v0 ∧
      q.a0 = pr.a0 ∧ q.pf = pr.pf ∧ q.vf = pr.vf ∧ q.af = pr.af) ∧
    (q.ts0 = pr.t0 ∧ q.ts1 = pr.t0 + pr.t1 ∧ q.ts2 = pr.t0 + pr.t1 + pr.t2 ∧
      q.ts3 = pr.t0 + pr.t1 + pr.t2 + pr.t3 ∧
      q.ts4 = pr.t0 + pr.t1 + pr.t2 + pr.t3 + pr.t4 ∧
      q.ts5 = pr.t0 + pr.t1 + pr.t2 + pr.t3 + pr.t4 + pr.t5 ∧
      q.ts6 = pr.t0 + pr.t1 + pr.t2 + pr.t3 + pr.t4 + pr.t5 + pr.t6) ∧
    (|q.p7 - pr.pf| < P_PRECISION ∧ |q.v7 - pr.vf| < V_PRECISION ∧
      |q.a7 - pr.af| < A_PRECISION) ∧
    (pr.t0 = 0 → q.p1 = pr.p0 ∧ q.v1 = pr.v0 ∧ q.a1 = pr.a0) ∧
    (pr.t0 = 0 → pr.t1 = 0 → q.p2 = pr.p0 ∧ q.v2 = pr.v0 ∧ q.a2 = pr.a0) ∧
    (pr.t0 = 0 → pr.t1 = 0 → pr.t2 = 0 →
      q.p3 = pr.p0 ∧ q.v3 = pr.v0 ∧
      ((isVelLimits lim = true ∨ lim = ReachedLimits.Acc0Acc1) → q.a3 = 0) ∧
      (¬ (isVelLimits lim = true ∨ lim = ReachedLimits.Acc0Acc1) → q.a3 = pr.a0)) ∧
    (pr.t0 = 0 → pr.t1 = 0 → pr.t2 = 0 → pr.t3 = 0 →
      q.p4 = pr.p0 ∧ q.v4 = pr.v0 ∧ q.a4 = q.a3) ∧
    (pr.t0 = 0 → pr.t1 = 0 → pr.t2 = 0 → pr.t3 = 0 → pr.t4 = 0 →
      q.p5 = pr.p0 ∧ q.v5 = pr.v0 ∧ q.a5 = q.a4) ∧
    (pr.t0 = 0 → pr.t1 = 0 → pr.t2 = 0 → pr.t3 = 0 → pr.t4 = 0 → pr.t5 = 0 →
      q.p6 = pr.p0 ∧ q.v6 = pr.v0 ∧ q.a6 = q.a5) := by
  simp only [Profile.check] at hchk
  by_cases hc1 : (pr.t0 < 0 ∨ pr.t1 < 0 ∨ pr.t2 < 0 ∨ pr.t3 < 0 ∨ pr.t4 < 0 ∨ pr.t5 < 0 ∨
      pr.t6 < 0)
  · rw [if_pos hc1] at hchk
    simp at hchk
  rw [if_neg hc1] at hchk
  by_cases hc2 : (isVelLimits lim = true ∧ pr.t3 < EPSILON)
  · rw [if_pos hc2] at hchk
    simp at hchk
  rw [if_neg hc2] at hchk
  by_cases hc3 : (isAcc0Limits lim = true ∧ pr.t1 < EPSILON)
  · rw [if_pos hc3] at hchk
    simp at hchk
  rw [if_neg hc3] at hchk
  by_cases hc4 : (isAcc1Limits lim = true ∧ pr.t5 < EPSILON)
  · rw [if_pos hc4] at hchk
    simp at hchk
  rw [if_neg hc4] at hchk
  by_cases hc5 : T_MAX < pr.t0 + pr.t1 + pr.t2 + pr.t3 + pr.t4 + pr.t5 + pr.t6
  · rw [if_pos hc5] at hchk
    simp at hchk
  rw [if_neg hc5] at hchk
  rw [Prod.mk.injEq] at hchk
  obtain ⟨hq, hP⟩ := hchk
  rw [decide_eq_true_eq] at hP
  subst hq
  push_neg at hc1
  obtain ⟨n0, n1, n2, n3, n4, n5, n6⟩ := hc1
  refine ⟨⟨n0, n1, n2, n3, n4, n5, n6⟩, ⟨rfl, rfl, rfl, rfl, rfl, rfl, rfl, rfl⟩,
    ⟨rfl, rfl, by ring, by ring, by ring, by ring, by ring⟩,
    ⟨hP.2.2.2.2.2.1, hP.2.2.2.2.2.2.1, hP.2.2.2.2.2.2.2.1⟩,
    ?_, ?_, ?_, ?_, ?_, ?_⟩
  · intro h0
    refine ⟨?_, ?_, ?_⟩ <;> simp [h0]
  · intro h0 h1
    refine ⟨?_, ?_, ?_⟩ <;> simp [h0, h1]
  · intro h0 h1 h2
    refine ⟨by simp [h0, h1, h2], by simp [h0, h1, h2], ?_, ?_⟩
    · intro hl
      simp [hl]
    · intro hl
      simp [hl, h0, h1, h2]
  · intro h0 h1 h2 h3
    refine ⟨?_, ?_, ?_⟩ <;> simp [h0, h1, h2, h3]
  · intro h0 h1 h2 h3 h4
    refine ⟨?_, ?_, ?_⟩ <;> simp [h0, h1, h2, h3, h4]
  · intro h0 h1 h2 h3 h4 h5
    refine ⟨?_, ?_, ?_⟩ <;> simp [h0, h1, h2, h3, h4, h5]

/-- C1: for a profile accepted by `Profile::check` whose brake prefix was
produced by `BrakeProfile::finalize` from the input state `(ps, vs, az)`
(and with no post-`accel` profile, as in the target calculator), sampling
the one-section trajectory at time 0 reproduces the input state exactly,
and sampling at the trajectory duration reproduces the target state within
`P_PRECISION`, `V_PRECISION` and `A_PRECISION`.  The hypothesis `hbr`
excludes a brake with `t[0] ≤ 0 < t[1]` (the brake constructors never emit
one), and `hvel` records that the velocity-plateau `a[3] := 0` pinning only
occurs when the initial acceleration is zero or an earlier segment has
positive duration (as holds for the Step-1/Step-2 generated profiles). -/
theorem c1_boundary_match (pr : Profile) (cs : ControlSigns) (lim : ReachedLimits)
    (jf v_max v_min a_max a_min : ℚ) (q : Profile)
    (br : BrakeProfile) (ps vs az dur : ℚ)
    (hchk : Profile.check pr cs lim false jf v_max v_min a_max a_min = (q, true))
    (hfin : BrakeProfile.finalize br ps vs az = (pr.brake, pr.p0, pr.v0, pr.a0))
    (hbr : 0 < br.t0 ∨ br.t1 ≤ 0)
    (haccel : pr.accel.duration = 0)
    (hdur : dur = pr.brake.duration + q.ts6 + pr.accel.duration)
    (hpos : 0 < dur)
    (hvel : (isVelLimits lim = true ∨ lim = ReachedLimits.Acc0Acc1) →
        pr.a0 = 0 ∨ 0 < pr.t0 + pr.t1 + pr.t2) :
    at_time_single_section q dur 0 = (ps, vs, az) ∧
      |(at_time_single_section q dur dur).1 - pr.pf| < P_PRECISION ∧
      |(at_time_single_section q dur dur).2.1 - pr.vf| < V_PRECISION ∧
      |(at_time_single_section q dur dur).2.2 - pr.af| < A_PRECISION := by
  obtain ⟨⟨n0, n1, n2, n3, n4, n5, n6⟩, ⟨hbrk, hacc, hp0, hv0, ha0, hpf, hvf, haf⟩,
      ⟨hs0, hs1, hs2, hs3, hs4, hs5, hs6⟩, ⟨hb1, hb2, hb3⟩, hZ1, hZ2, hZ3, hZ4, hZ5, hZ6⟩ :=
    check_true_fields pr cs lim jf v_max v_min a_max a_min q hchk
  have hEnd : at_time_single_section q dur dur = (q.p7, q.v7, q.a7) := by
    simp only [at_time_single_section]
    rw [if_pos le_rfl]
    have h0 : dur - (q.brake.duration + q.ts6) = 0 := by
      rw [hbrk, hdur, haccel]; ring
    rw [h0, integrate_zero]
  have hZero : at_time_single_section q dur 0 = (ps, vs, az) := by
    simp only [at_time_single_section]
    rw [if_neg (not_le.mpr hpos)]
    simp only [state_to_integrate_from_dof, hbrk]
    rw [BrakeProfile.finalize] at hfin
    split_ifs at hfin with hfe hft
    · -- both brake segment durations non-positive: brake untouched, state unchanged
      simp only [Prod.mk.injEq] at hfin
      obtain ⟨hfb, hfp, hfv, hfa⟩ := hfin
      have hbd : pr.brake.duration = 0 := by rw [← hfb]
      have hts6 : 0 < q.ts6 := by
        rw [hdur, hbd, haccel] at hpos; linarith
      rw [hbd]
      simp only [lt_self_iff_false, false_and, if_false]
      rw [if_neg (not_le.mpr hts6)]
      by_cases c0 : (0 : ℚ) < q.ts0
      · rw [if_pos c0, integrate_zero, hp0, hv0, ha0, ← hfp, ← hfv, ← hfa]
      rw [if_neg c0]
      have e0 : pr.t0 = 0 := by rw [hs0] at c0; linarith
      by_cases c1 : (0 : ℚ) < q.ts1
      · rw [if_pos c1]
        have hh : (0 : ℚ) - q.ts0 = 0 := by rw [hs0, e0]; ring
        rw [hh, integrate_zero, (hZ1 e0).1, (hZ1 e0).2.1, (hZ1 e0).2.2,
          ← hfp, ← hfv, ← hfa]
      rw [if_neg c1]
      have e1 : pr.t1 = 0 := by rw [hs1, e0] at c1; linarith
      -- common fact: the pinned `a[3]` still equals the start acceleration
      have ha3 : pr.t2 = 0 → q.a3 = pr.a0 := by
        intro e2
        by_cases hl : (isVelLimits lim = true ∨ lim = ReachedLimits.Acc0Acc1)
        · rcases hvel hl with hz | hpos3
          · rw [(hZ3 e0 e1 e2).2.2.1 hl, hz]
          · rw [e0, e1, e2] at hpos3; norm_num at hpos3
        · exact (hZ3 e0 e1 e2).2.2.2 hl
      by_cases c2 : (0 : ℚ) < q.ts2
      · rw [if_pos c2]
        have hh : (0 : ℚ) - q.ts1 = 0 := by rw [hs1, e0, e1]; ring
        rw [hh, integrate_zero, (hZ2 e0 e1).1, (hZ2 e0 e1).2.1, (hZ2 e0 e1).2.2,
          ← hfp, ← hfv, ← hfa]
      rw [if_neg c2]
      have e2 : pr.t2 = 0 := by rw [hs2, e0, e1] at c2; linarith
      by_cases c3 : (0 : ℚ) < q.ts3
      · rw [if_pos c3]
        have hh : (0 : ℚ) - q.ts2 = 0 := by rw [hs2, e0, e1, e2]; ring
        rw [hh, integrate_zero, (hZ3 e0 e1 e2).1, (hZ3 e0 e1 e2).2.1, ha3 e2,
          ← hfp, ← hfv, ← hfa]
      rw [if_neg c3]
      have e3 : pr.t3 = 0 := by rw [hs3, e0, e1, e2] at c3; linarith
      by_cases c4 : (0 : ℚ) < q.ts4
      · rw [if_pos c4]
        have hh : (0 : ℚ) - q.ts3 = 0 := by rw [hs3, e0, e1, e2, e3]; ring
        rw [hh, integrate_zero, (hZ4 e0 e1 e2 e3).1, (hZ4 e0 e1 e2 e3).2.1,
          (hZ4 e0 e1 e2 e3).2.2, ha3 e2, ← hfp, ← hfv, ← hfa]
      rw [if_neg c4]
      have e4 : pr.t4 = 0 := by rw [hs4, e0, e1, e2, e3] at c4; linarith
      by_cases c5 : (0 : ℚ) < q.ts5
      · rw [if_pos c5]
        have hh : (0 : ℚ) - q.ts4 = 0 := by rw [hs4, e0, e1, e2, e3, e4]; ring
        rw [hh, integrate_zero, (hZ5 e0 e1 e2 e3 e4).1, (hZ5 e0 e1 e2 e3 e4).2.1,
          (hZ5 e0 e1 e2 e3 e4).2.2, (hZ4 e0 e1 e2 e3).2.2, ha3 e2, ← hfp, ← hfv, ← hfa]
      rw [if_neg c5]
      have e5 : pr.t5 = 0 := by rw [hs5, e0, e1, e2, e3, e4] at c5; linarith
      have hh : (0 : ℚ) - q.ts5 = 0 := by rw [hs5, e0, e1, e2, e3, e4, e5]; ring
      rw [hh, integrate_zero, (hZ6 e0 e1 e2 e3 e4 e5).1, (hZ6 e0 e1 e2 e3 e4 e5).2.1,
        (hZ6 e0 e1 e2 e3 e4 e5).2.2, (hZ5 e0 e1 e2 e3 e4).2.2, (hZ4 e0 e1 e2 e3).2.2,
        ha3 e2, ← hfp, ← hfv, ← hfa]
    · -- two-segment brake: the sample at 0 is the stored brake start state
      simp only [Prod.mk.injEq] at hfin
      obtain ⟨hfb, -⟩ := hfin
      have ht0 : 0 < br.t0 := by
        rcases hbr with h | h
        · exact h
        · linarith
      have hbd : 0 < pr.brake.duration := by
        rw [← hfb]; show (0 : ℚ) < br.t0 + br.t1; linarith
      have hbt0 : (0 : ℚ) < pr.brake.t0 := by
        rw [← hfb]; exact ht0
      rw [if_pos ⟨hbd, hbd⟩, if_pos hbt0, integrate_zero, ← hfb]
    · -- one-segment brake
      simp only [Prod.mk.injEq] at hfin
      obtain ⟨hfb, -⟩ := hfin
      have ht0 : 0 < br.t0 := by
        rcases hbr with h | h
        · exact h
        · by_contra hc
          exact hfe ⟨by linarith, h⟩
      have hbd : 0 < pr.brake.duration := by
        rw [← hfb]; exact ht0
      have hbt0 : (0 : ℚ) < pr.brake.t0 := by
        rw [← hfb]; exact ht0
      rw [if_pos ⟨hbd, hbd⟩, if_pos hbt0, integrate_zero, ← hfb]
  refine ⟨hZero, ?_, ?_, ?_⟩ <;> rw [hEnd]
  · exact hb1
  · exact hb2
  · exact hb3

/-- Witness for `c1_boundary_match` on `c1wpr` with `jf = 1`,
`v ∈ [-2, 2]`, `a ∈ [-3/2, 3/2]`, duration 4 and an empty brake. -/
theorem c1_boundary_match_witness :
    at_time_single_section
        (Profile.check c1wpr ControlSigns.UDDU ReachedLimits.None false 1 2 (-2) (3 / 2)
          (-(3 / 2))).1 4 0 = (0, 0, 0) ∧
      |(at_time_single_section
          (Profile.check c1wpr ControlSigns.UDDU ReachedLimits.None false 1 2 (-2) (3 / 2)
            (-(3 / 2))).1 4 4).1 - c1wpr.pf| < P_PRECISION ∧
      |(at_time_single_section
          (Profile.check c1wpr ControlSigns.UDDU ReachedLimits.None false 1 2 (-2) (3 / 2)
            (-(3 / 2))).1 4 4).2.1 - c1wpr.vf| < V_PRECISION ∧
      |(at_time_single_section
          (Profile.check c1wpr ControlSigns.UDDU ReachedLimits.None false 1 2 (-2) (3 / 2)
            (-(3 / 2))).1 4 4).2.2 - c1wpr.af| < A_PRECISION := by
  have h2 : (Profile.check c1wpr ControlSigns.UDDU ReachedLimits.None false 1 2 (-2) (3 / 2)
      (-(3 / 2))).2 = true := by
    norm_num [Profile.check, c1wpr, isVelLimits, isAcc0Limits, isAcc1Limits, EPSILON, T_MAX,
      V_EPS, A_EPS, P_PRECISION, V_PRECISION, A_PRECISION]
  have hts : (Profile.check c1wpr ControlSigns.UDDU ReachedLimits.None false 1 2 (-2) (3 / 2)
      (-(3 / 2))).1.ts6 = 4 := by
    norm_num [Profile.check, c1wpr, isVelLimits, isAcc0Limits, isAcc1Limits, EPSILON, T_MAX]
  exact c1_boundary_match c1wpr ControlSigns.UDDU ReachedLimits.None 1 2 (-2) (3 / 2)
    (-(3 / 2))
    (Profile.check c1wpr ControlSigns.UDDU ReachedLimits.None false 1 2 (-2) (3 / 2)
      (-(3 / 2))).1
    {} 0 0 0 4
    (by rw [← h2])
    (by norm_num [BrakeProfile.finalize, c1wpr])
    (by norm_num)
    rfl
    (by rw [hts]; norm_num [c1wpr])
    (by norm_num)
    (by intro h; simp [isVelLimits] at h)

/-- The claim of C4 fails: for a disabled DoF with current velocity 1 the
sampled position at `t = 1` is 1, not the current position 0 — the sampler
extrapolates the current state with zero jerk instead of holding it. -/
theorem c4_counterexample :
    at_time_single_section (disabled_dof_profile 0 1 0) 2 1 = (1, 1, 0) ∧
      ((1, 1, 0) : ℚ × ℚ × ℚ) ≠ (0, 1, 0) := by
  constructor
  · norm_num [at_time_single_section, state_to_integrate_from_dof, disabled_dof_profile,
      integrate]
  · norm_num

/-- The claim of C3 fails: the limit-inclusion slack constants in
`profile.rs` (lines 6-8) are `1e-12`, not `2e-14`. -/
theorem c3_counterexample :
    ¬ (V_EPS = 2 / 10 ^ 14 ∧ A_EPS = 2 / 10 ^ 14 ∧ J_EPS = 2 / 10 ^ 14) := by
  norm_num [V_EPS, A_EPS, J_EPS]

/-- The claim of C5 fails on the time-reset part: on a recompute call
(previous input uninitialized) with stored `output.time = 5` and
`delta_time = 1`, the updated time is `6` — the driver never resets
`output.time` to 0 before advancing, which would have produced `1`. -/
theorem c5_counterexample :
    (updOut (Ruckig.update (calcConst 10) atTimeStub id false
        { current_input := {}, current_input_initialized := false,
          degrees_of_freedom := 1, delta_time := 1 }
        {}
        { trajectory := 0, time := 5 })).map
      (fun o => (o.new_calculation, o.time)) = some (true, 6) ∧
    ((6 : ℚ) ≠ 0 + 1) := by
  constructor
  · norm_num [Ruckig.update, Ruckig.updateTail, updOut, calcConst, atTimeStub, pass_to_input,
      InputParameter.eq, Except.toOption]
  · norm_num

/-- The claim of C6 fails: with an instance DoF count of 3 and an input
claiming 4 DoFs, update does not return `Error` (the guard of `ruckig.rs`
line 268 only fires when the instance count is 0), it runs normally. -/
theorem c6_counterexample :
    (updResult (Ruckig.update (calcConst 10) atTimeStub id false
        { current_input := {}, current_input_initialized := false,
          degrees_of_freedom := 3, delta_time := 1 }
        { degrees_of_freedom := 4 }
        { degrees_of_freedom := 3, trajectory := 0 })) = some RuckigResult.Working ∧
      (4 : ℕ) ≠ 3 := by
  constructor
  · norm_num [Ruckig.update, Ruckig.updateTail, updResult, calcConst, atTimeStub,
      pass_to_input, InputParameter.eq, Except.toOption]
  · norm_num

/-- The claim of C7 fails: a single-DoF continuous calculation whose Step-1
minimum duration is 8000 s (> 7.6e3) returns `Working` through the shortcut
— the maximal-duration guard sits after the synchronize stage and is never
reached on this path, even though it is enabled. -/
theorem c7_counterexample :
    (TargetCalculator.calculate1 (some { t_min := 8000 }) false 0 none false (1 / 100)
        true).result = Calc1Result.Working ∧
      (TargetCalculator.calculate1 (some { t_min := 8000 }) false 0 none false (1 / 100)
          true).duration = 8000 ∧
      (7600 : ℚ) < 8000 ∧
      Calc1Result.Working ≠ Calc1Result.ErrorTrajectoryDuration := by
  refine ⟨by simp [TargetCalculator.calculate1], by simp [TargetCalculator.calculate1],
    by norm_num, by simp⟩
